import Mathlib

/-!
Verification of the lunarc-blog service layer (UserService, ArticleService)
against its natural-language specification.

The Go services wrap two MongoDB collections ("user", "article").  We model a
collection as a `List` of documents and each service method as a pure function
from its arguments and the collection state to a `GoResult` (the method's
return value) together with the resulting collection state.  Nondeterministic
collaborator calls (`bson.NewObjectId`, `security.GenerateSalt`) and external
collaborator functions (`security.HashPassword`, `security.CheckPassword`,
`utils.SanitizeTitle`) are passed in as explicit parameters / oracles.

A `bson.ObjectId` is represented by its 24-character hex string (Go stores the
12 decoded bytes; two hex strings differing only in letter case decode to the
same ObjectId, which we capture by normalising to lower case).
-/

namespace LunarcBlog

/-- Outcome of a Go method: a normal return value, a non-nil `error` (identified
by its message string), or an uncaught panic that escapes to the caller. -/
inductive GoResult (α : Type) where
  | ok : α → GoResult α
  | error : String → GoResult α
  | panicked : GoResult α
deriving Repr, DecidableEq

/-- Go `encoding/hex` accepts upper- and lower-case hex digits. -/
def isHexChar (c : Char) : Bool :=
  (('0' ≤ c) && (c ≤ '9')) || (('a' ≤ c) && (c ≤ 'f')) || (('A' ≤ c) && (c ≤ 'F'))

/-- `bson.ObjectIdHex` succeeds exactly on strings of 24 hex characters
(`hex.DecodeString` succeeds and yields 12 bytes). -/
def isValidObjectIdHex (s : String) : Bool :=
  s.length == 24 && s.toList.all isHexChar

/-- Lower-casing of a hex digit (the only characters `objectIdHex` ever
applies it to after validation). -/
def hexCharToLower : Char → Char
  | 'A' => 'a'
  | 'B' => 'b'
  | 'C' => 'c'
  | 'D' => 'd'
  | 'E' => 'e'
  | 'F' => 'f'
  | c => c

/-- Lower-case all hex digits of a string. -/
def lowerHex (s : String) : String :=
  String.mk (s.toList.map hexCharToLower)

/-- `bson.ObjectIdHex(s)`: `none` models the panic raised on a malformed
identifier; on success the ObjectId is the lower-cased hex string (letter
case is lost in the 12 decoded bytes the driver actually stores). -/
def objectIdHex (s : String) : Option String :=
  if isValidObjectIdHex s then some (lowerHex s) else none

/-- The first 32 bytes of a string, as taken by `b[:32]`. -/
def take32 (s : String) : String :=
  String.mk (s.toList.take 32)

/-- `string(b[:32])` on a Go byte slice: `none` models the out-of-range panic
when the slice is shorter than 32. -/
def sliceTo32 (s : String) : Option String :=
  if 32 ≤ s.length then some (take32 s) else none

/-- `model.User` (fields of the persisted user document: the embedded
`security.User` {username, password, salt, email} plus _id, firstname,
lastname). -/
structure User where
  id : String
  username : String
  password : String
  salt : String
  email : String
  firstname : String
  lastname : String
deriving Repr, DecidableEq

/-- `UserService.Get`: find one document by username (a failed lookup returns
the driver's "not found" error unchanged), then
`security.CheckPassword(password, user.Salt, user.Password)`; a `false`
verdict yields the distinct error "Invalid password". -/
def userGet (checkPassword : String → String → String → Except String Bool)
    (username password : String) (st : List User) : GoResult User :=
  match st.find? (fun u => u.username == username) with
  | none => GoResult.error "not found"
  | some user =>
    match checkPassword password user.salt user.password with
    | Except.error e => GoResult.error e
    | Except.ok valid =>
      if valid then GoResult.ok user else GoResult.error "Invalid password"

/-- `UserService.GetByID`: `bson.ObjectIdHex(id)` may panic, which the deferred
`recover` converts to the error "Incorrect ID"; then find one by _id. -/
def userGetByID (id : String) (st : List User) : GoResult User :=
  match objectIdHex id with
  | none => GoResult.error "Incorrect ID"
  | some oid =>
    match st.find? (fun u => u.id == oid) with
    | none => GoResult.error "not found"
    | some u => GoResult.ok u

/-- `UserService.Add`: generate a salt (`generateSalt` is the oracle for this
call's outcome), store its first 32 bytes in `user.Salt`, hash the plaintext
password with the full salt, store the hash's first 32 bytes in
`user.Password`, insert the document under the fresh id `newId` (the oracle
for `bson.NewObjectId()`), then read the inserted document back by id.  `Add`
has no `recover`, so a short salt or hash panics.
`userAddDoc` is the document `Insert` receives: the embedded
`security.User{Username, Password, Salt, Email}` (password and salt already
replaced by the derived values) plus ID, Firstname, Lastname. -/
def userAddDoc (newId : String) (user : User) (salt32 pw32 : String) : User :=
  { id := newId, username := user.username, password := pw32, salt := salt32,
    email := user.email, firstname := user.firstname, lastname := user.lastname }

def userAdd (generateSalt : Except String String)
    (hashPassword : String → String → Except String String)
    (newId : String) (user : User) (st : List User) : GoResult User × List User :=
  match generateSalt with
  | Except.error _ => (GoResult.error "Error when generatiing Salt", st)
  | Except.ok salt =>
    match sliceTo32 salt with
    | none => (GoResult.panicked, st)
    | some salt32 =>
      match hashPassword user.password salt with
      | Except.error e => (GoResult.error e, st)
      | Except.ok hashed =>
        match sliceTo32 hashed with
        | none => (GoResult.panicked, st)
        | some pw32 =>
          match (st ++ [userAddDoc newId user salt32 pw32]).find? (fun u => u.id == newId) with
          | none => (GoResult.error "User not saved", st ++ [userAddDoc newId user salt32 pw32])
          | some r => (GoResult.ok r, st ++ [userAddDoc newId user salt32 pw32])

/-- `UserService.Delete` removes one document matching {_id: user.ID,
username: user.Username}.  Modelled from the spec: the store's delete-by-filter
(`mgo` `Collection.Remove` through the lunarc mongo session, neither under
src/) is, per the spec's stated policy, a silent no-op success when nothing
matches; a performed deletion also returns success. -/
def userDelete (user : User) (st : List User) : GoResult Unit × List User :=
  (GoResult.ok (), st.eraseP (fun d => d.id == user.id && d.username == user.username))

/-- `$set`-style partial update applied to the first document matching `p`;
`none` models the driver's "not found" when no document matches. -/
def updateFirst {α : Type} (p : α → Bool) (f : α → α) : List α → Option (List α)
  | [] => none
  | d :: rest =>
    if p d then some (f d :: rest)
    else Option.map (fun r => d :: r) (updateFirst p f rest)

/-- The `$set` document of `UserService.Update`: fields username, lastname,
firstname, password, salt, email (and nothing else; _id is the key, not set). -/
def setUserFields (user : User) (salt32 pw32 : String) (d : User) : User :=
  { d with
    username := user.username,
    lastname := user.lastname,
    firstname := user.firstname,
    password := pw32,
    salt := salt32,
    email := user.email }

/-- `UserService.Update`: a deferred `recover` turns any panic (short salt or
hash slice, malformed id in `bson.ObjectIdHex`) into the error "Incorrect ID".
Salt generation and hashing happen unconditionally before the keyed `$set`
update. -/
def userUpdate (generateSalt : Except String String)
    (hashPassword : String → String → Except String String)
    (id : String) (user : User) (st : List User) : GoResult Unit × List User :=
  match generateSalt with
  | Except.error e => (GoResult.error e, st)
  | Except.ok salt =>
    match sliceTo32 salt with
    | none => (GoResult.error "Incorrect ID", st)
    | some salt32 =>
      match hashPassword user.password salt with
      | Except.error e => (GoResult.error e, st)
      | Except.ok hashed =>
        match sliceTo32 hashed with
        | none => (GoResult.error "Incorrect ID", st)
        | some pw32 =>
          match objectIdHex id with
          | none => (GoResult.error "Incorrect ID", st)
          | some oid =>
            match updateFirst (fun d => d.id == oid) (setUserFields user salt32 pw32) st with
            | none => (GoResult.error "not found", st)
            | some st2 => (GoResult.ok (), st2)

/-- `mgo.DBRef` as persisted by this code: collection name and referenced id.
(The driver's optional Database field is never set by either service and is
omitted.) -/
structure DBRef where
  collection : String
  id : String
deriving Repr, DecidableEq

/-- `model.Article`: _id, Titre, Pretty (the slug), Texte, Tags, Image,
Vignette, Status, Create, Modified, UserRef.  Tags, Image and Vignette are
opaque pass-through values here; the two `time.Time` stamps are modelled as
naturals. -/
structure Article where
  id : String
  titre : String
  pretty : String
  texte : String
  tags : List String
  image : String
  vignette : String
  status : String
  create : Nat
  modified : Nat
  userRef : DBRef
deriving Repr, DecidableEq

/-- `ArticleService.GetByID` has no `recover`: a malformed identifier makes
`bson.ObjectIdHex(id)` panic and the panic escapes to the caller; a failed
lookup is wrapped as the generic error "No article". -/
def articleGetByID (id : String) (st : List Article) : GoResult Article :=
  match objectIdHex id with
  | none => GoResult.panicked
  | some oid =>
    match st.find? (fun a => a.id == oid) with
    | none => GoResult.error "No article"
    | some a => GoResult.ok a

/-- `ArticleService.Add`: derive the slug `pretty` from the title via
`utils.SanitizeTitle`, insert the document under the fresh id `newId` with
`Modified := article.Create` and `UserRef := DBRef{Collection: "user",
Id: article.UserRef.Id}`, then read the inserted document back by id (a
read-back failure propagates the driver error unchanged).
`articleAddDoc` is the document `Insert` receives. -/
def articleAddDoc (sanitizeTitle : String → String) (newId : String)
    (article : Article) : Article :=
  { id := newId, titre := article.titre, pretty := sanitizeTitle article.titre,
    texte := article.texte, tags := article.tags, image := article.image,
    vignette := article.vignette, status := article.status,
    create := article.create, modified := article.create,
    userRef := { collection := "user", id := article.userRef.id } }

def articleAdd (sanitizeTitle : String → String) (newId : String)
    (article : Article) (st : List Article) : GoResult Article × List Article :=
  match (st ++ [articleAddDoc sanitizeTitle newId article]).find? (fun a => a.id == newId) with
  | none => (GoResult.error "not found", st ++ [articleAddDoc sanitizeTitle newId article])
  | some r => (GoResult.ok r, st ++ [articleAddDoc sanitizeTitle newId article])

/-- `ArticleService.Delete` removes one document matching {_id: article.ID,
titre: article.Titre}.  Modelled from the spec: as for `userDelete`, the
store's delete-by-filter is a silent no-op success when nothing matches. -/
def articleDelete (article : Article) (st : List Article) : GoResult Unit × List Article :=
  (GoResult.ok (), st.eraseP (fun d => d.id == article.id && d.titre == article.titre))

/-- The `$set` document of `ArticleService.Update`: titre, pretty, image,
vignette, texte, status, modified, tags, and userref as the pair
{$ref: caller collection, $id: caller id}; _id is the key, not set. -/
def setArticleFields (article : Article) (pretty : String) (d : Article) : Article :=
  { d with
    titre := article.titre,
    pretty := pretty,
    image := article.image,
    vignette := article.vignette,
    texte := article.texte,
    status := article.status,
    modified := article.modified,
    tags := article.tags,
    userRef := { collection := article.userRef.collection, id := article.userRef.id } }

/-- `ArticleService.Update` has no `recover`: a malformed identifier panics.
The slug is recomputed from the new title and the keyed `$set` update
applied. -/
def articleUpdate (sanitizeTitle : String → String) (id : String)
    (article : Article) (st : List Article) : GoResult Unit × List Article :=
  let pretty := sanitizeTitle article.titre
  match objectIdHex id with
  | none => (GoResult.panicked, st)
  | some oid =>
    match updateFirst (fun d => d.id == oid) (setArticleFields article pretty) st with
    | none => (GoResult.error "not found", st)
    | some st2 => (GoResult.ok (), st2)

/-! Concrete collaborator instances and sample data used to evaluate the
theorems on closed inputs. -/

/-- A concrete 32-byte salt. -/
def saltC : String := "ssssssssssssssssssssssssssssssss"

/-- A concrete 32-byte hash output. -/
def hashOutC : String := "hhhhhhhhhhhhhhhhhhhhhhhhhhhhhhhh"

/-- A concrete outcome for the `GenerateSalt` call: success with `saltC`. -/
def genSaltC : Except String String := Except.ok saltC

/-- A concrete hashing collaborator: always returns `hashOutC`. -/
def hashFnC : String → String → Except String String := fun _ _ => Except.ok hashOutC

/-- A concrete password checker: the password verifies iff it equals the
stored hash value. -/
def chkFnC : String → String → String → Except String Bool :=
  fun p _ h => Except.ok (h == p)

/-- A concrete slugifier. -/
def sanC : String → String := fun t => t ++ "-slug"

/-- A concrete well-formed ObjectId (24 lower-case hex characters). -/
def newIdC : String := "aaaaaaaaaaaaaaaaaaaaaaaa"

/-- A second concrete well-formed ObjectId. -/
def otherIdC : String := "bbbbbbbbbbbbbbbbbbbbbbbb"

/-- A stored user document. -/
def aliceStored : User :=
  { id := otherIdC, username := "alice", password := "stored", salt := "s",
    email := "", firstname := "", lastname := "" }

/-- A user as supplied by a caller (plaintext password "pw"). -/
def userC : User :=
  { id := "", username := "bob", password := "pw", salt := "",
    email := "bob@example.org", firstname := "Bob", lastname := "B" }

/-- An article as supplied by a caller (with a caller-chosen slug and author
reference collection that the service is expected to ignore on Add). -/
def articleC : Article :=
  { id := "", titre := "Un Titre", pretty := "caller-pretty", texte := "corps",
    tags := ["t1"], image := "img", vignette := "vig", status := "draft",
    create := 5, modified := 9,
    userRef := { collection := "custom", id := otherIdC } }

/-- A stored article document with id `newIdC`. -/
def artStoredC : Article :=
  { id := newIdC, titre := "Vieux", pretty := "vieux", texte := "ancien",
    tags := [], image := "", vignette := "", status := "published",
    create := 1, modified := 2,
    userRef := { collection := "user", id := otherIdC } }

/-- A stored user document with id `newIdC`. -/
def userStoredC : User :=
  { id := newIdC, username := "carol", password := "old-hash", salt := "old-salt",
    email := "carol@example.org", firstname := "Carol", lastname := "C" }

/-- The document a concrete successful `userAdd` run inserts and returns. -/
def userAddedC : User := userAddDoc newIdC userC (take32 saltC) (take32 hashOutC)

/-- The document a concrete successful `articleAdd` run inserts and returns. -/
def articleAddedC : Article := articleAddDoc sanC newIdC articleC

/-! Helper lemmas about the store model. -/

theorem updateFirst_mem {α : Type} (p : α → Bool) (f : α → α) :
    ∀ (l l2 : List α), updateFirst p f l = some l2 →
      ∀ d ∈ l2, d ∈ l ∨ ∃ x, x ∈ l ∧ d = f x := by
  intro l
  induction l with
  | nil => intro l2 h; simp [updateFirst] at h
  | cons a rest ih =>
    intro l2 h d hd
    rw [updateFirst] at h
    by_cases hp : p a
    · rw [if_pos hp] at h
      injection h with h
      subst h
      rcases List.mem_cons.mp hd with he | hm
      · exact Or.inr ⟨a, List.mem_cons_self a rest, he⟩
      · exact Or.inl (List.mem_cons_of_mem a hm)
    · rw [if_neg hp] at h
      rcases Option.map_eq_some'.mp h with ⟨r, hr, hl2⟩
      subst hl2
      rcases List.mem_cons.mp hd with he | hm
      · subst he; exact Or.inl (List.mem_cons_self d rest)
      · rcases ih r hr d hm with h1 | ⟨x, hx, he⟩
        · exact Or.inl (List.mem_cons_of_mem a h1)
        · exact Or.inr ⟨x, List.mem_cons_of_mem a hx, he⟩

theorem updateFirst_append {α : Type} (p : α → Bool) (f : α → α)
    (pre : List α) (d : α) (post : List α)
    (hpre : ∀ x ∈ pre, p x = false) (hd : p d = true) :
    updateFirst p f (pre ++ d :: post) = some (pre ++ f d :: post) := by
  induction pre with
  | nil => simp [updateFirst, hd]
  | cons a rest ih =>
    have ha : p a = false := hpre a (List.mem_cons_self a rest)
    simp [updateFirst, ha, ih (fun x hx => hpre x (List.mem_cons_of_mem a hx))]

theorem userAdd_eq_of_derived (gen : Except String String)
    (hash : String → String → Except String String)
    (newId : String) (user : User) (st : List User) (salt hp : String)
    (hgen : gen = Except.ok salt) (hsl : 32 ≤ salt.length)
    (hhash : hash user.password salt = Except.ok hp) (hpl : 32 ≤ hp.length) :
    userAdd gen hash newId user st =
      match (st ++ [userAddDoc newId user (take32 salt) (take32 hp)]).find?
          (fun u => u.id == newId) with
      | none => (GoResult.error "User not saved",
          st ++ [userAddDoc newId user (take32 salt) (take32 hp)])
      | some r => (GoResult.ok r,
          st ++ [userAddDoc newId user (take32 salt) (take32 hp)]) := by
  subst hgen
  simp [userAdd, sliceTo32, hsl, hhash, hpl]

theorem userAdd_snd (gen : Except String String)
    (hash : String → String → Except String String)
    (newId : String) (user : User) (st : List User) (salt hp : String)
    (hgen : gen = Except.ok salt) (hsl : 32 ≤ salt.length)
    (hhash : hash user.password salt = Except.ok hp) (hpl : 32 ≤ hp.length) :
    (userAdd gen hash newId user st).2 =
      st ++ [userAddDoc newId user (take32 salt) (take32 hp)] := by
  rw [userAdd_eq_of_derived gen hash newId user st salt hp hgen hsl hhash hpl]
  split <;> rfl

theorem userUpdate_eq_of_derived (gen : Except String String)
    (hash : String → String → Except String String)
    (id : String) (user : User) (st : List User) (salt hp : String)
    (hgen : gen = Except.ok salt) (hsl : 32 ≤ salt.length)
    (hhash : hash user.password salt = Except.ok hp) (hpl : 32 ≤ hp.length) :
    userUpdate gen hash id user st =
      match objectIdHex id with
      | none => (GoResult.error "Incorrect ID", st)
      | some oid =>
        match updateFirst (fun d => d.id == oid)
            (setUserFields user (take32 salt) (take32 hp)) st with
        | none => (GoResult.error "not found", st)
        | some st2 => (GoResult.ok (), st2) := by
  subst hgen
  simp [userUpdate, sliceTo32, hsl, hhash, hpl]

theorem userAdd_ok_find (gen : Except String String)
    (hash : String → String → Except String String)
    (newId : String) (user : User) (st : List User) (r : User) (st2 : List User)
    (hu : userAdd gen hash newId user st = (GoResult.ok r, st2)) :
    st2.find? (fun u => u.id == newId) = some r := by
  unfold userAdd at hu
  split at hu
  · simp at hu
  · split at hu
    · simp at hu
    · split at hu
      · simp at hu
      · split at hu
        · simp at hu
        · split at hu
          · simp at hu
          · rename_i hfind
            injection hu with h1 h2
            injection h1 with h1
            subst h1; subst h2
            exact hfind

theorem articleAdd_ok_find (san : String → String) (newId : String)
    (article : Article) (st : List Article) (ra : Article) (ast2 : List Article)
    (ha : articleAdd san newId article st = (GoResult.ok ra, ast2)) :
    ast2.find? (fun x => x.id == newId) = some ra := by
  unfold articleAdd at ha
  split at ha
  · simp at ha
  · rename_i hfind
    injection ha with h1 h2
    injection h1 with h1
    subst h1; subst h2
    exact hfind

theorem articleAdd_snd (san : String → String) (newId : String)
    (article : Article) (st : List Article) :
    (articleAdd san newId article st).2 = st ++ [articleAddDoc san newId article] := by
  unfold articleAdd
  split <;> rfl

/-! Claim theorems. -/

/-- C1 (counterexample): `UserService.Get` does not return a single
undifferentiated error for the two failure modes.  With the same credentials,
a failed username lookup surfaces the store's "not found" error, while a
failed password verification (user "alice" is stored) returns the distinct
error "Invalid password"; the two error values differ, so the returned error
reveals which check failed. -/
theorem userGet_reveals_which_check_failed :
    userGet chkFnC "alice" "pw" [] = GoResult.error "not found" ∧
    userGet chkFnC "alice" "pw" [aliceStored] = GoResult.error "Invalid password" ∧
    (GoResult.error "not found" : GoResult User) ≠ GoResult.error "Invalid password" := by
  refine ⟨rfl, by decide, by decide⟩

/-- C1 (amended): `UserService.Get` fails in both cases, but with
distinguishable errors: when the username lookup finds no user it propagates
the store's "not found" error unchanged, and when password verification
returns a `false` verdict it returns the error "Invalid password". -/
theorem userGet_failure_modes
    (chk : String → String → String → Except String Bool)
    (username password : String) (st : List User) :
    (st.find? (fun u => u.username == username) = none →
      userGet chk username password st = GoResult.error "not found") ∧
    (∀ u, st.find? (fun u => u.username == username) = some u →
      chk password u.salt u.password = Except.ok false →
      userGet chk username password st = GoResult.error "Invalid password") := by
  constructor
  · intro h
    simp [userGet, h]
  · intro u hu hchk
    simp [userGet, hu, hchk]

/-- C1 (witness): the amended theorem evaluated on closed inputs. -/
theorem userGet_failure_modes_sample :
    userGet chkFnC "alice" "pw" [] = GoResult.error "not found" ∧
    userGet chkFnC "alice" "pw" [aliceStored] = GoResult.error "Invalid password" :=
  ⟨(userGet_failure_modes chkFnC "alice" "pw" []).1 rfl,
   (userGet_failure_modes chkFnC "alice" "pw" [aliceStored]).2 aliceStored rfl rfl⟩

/-- C3: for every identifier that is not a valid 24-hex-character string,
`UserService.GetByID` and `UserService.Update` return the typed error
"Incorrect ID" (the recovered `bson.ObjectIdHex` panic) instead of letting
the low-level fault escape; `Update` does so (leaving the store unchanged)
whenever its preceding salt-generation and hashing calls succeed with values
of at least 32 bytes. -/
theorem invalid_id_incorrect_id_error (gen : Except String String)
    (hash : String → String → Except String String)
    (id : String) (user : User) (st : List User) (salt hp : String)
    (hid : isValidObjectIdHex id = false)
    (hgen : gen = Except.ok salt) (hsl : 32 ≤ salt.length)
    (hhash : hash user.password salt = Except.ok hp) (hpl : 32 ≤ hp.length) :
    userGetByID id st = GoResult.error "Incorrect ID" ∧
    userUpdate gen hash id user st = (GoResult.error "Incorrect ID", st) := by
  have hoid : objectIdHex id = none := by simp [objectIdHex, hid]
  constructor
  · simp [userGetByID, hoid]
  · rw [userUpdate_eq_of_derived gen hash id user st salt hp hgen hsl hhash hpl, hoid]

/-- C3 (witness): the theorem evaluated at the malformed identifier "zz". -/
theorem invalid_id_incorrect_id_error_sample :
    userGetByID "zz" [userStoredC] = GoResult.error "Incorrect ID" ∧
    userUpdate genSaltC hashFnC "zz" userC [userStoredC] =
      (GoResult.error "Incorrect ID", [userStoredC]) :=
  invalid_id_incorrect_id_error genSaltC hashFnC "zz" userC [userStoredC]
    saltC hashOutC (by decide) rfl (by decide) rfl (by decide)

/-- C4: deletes are silent no-ops on no match.  Every `Delete` call returns
success, so a performed deletion and a no-op are indistinguishable to the
caller; when no stored document matches the id+username (resp. id+titre)
filter the store is left unchanged, and repeating the call yields the same
result.  (The store's no-match `Remove` behaviour is modelled from the spec,
see `userDelete`.) -/
theorem delete_silent_noop (user : User) (ust : List User)
    (article : Article) (ast : List Article)
    (hu : ∀ x ∈ ust, (x.id == user.id && x.username == user.username) = false)
    (ha : ∀ x ∈ ast, (x.id == article.id && x.titre == article.titre) = false) :
    (∀ (v : User) (l : List User), (userDelete v l).1 = GoResult.ok ()) ∧
    (∀ (b : Article) (l : List Article), (articleDelete b l).1 = GoResult.ok ()) ∧
    userDelete user ust = (GoResult.ok (), ust) ∧
    userDelete user ((userDelete user ust).2) = userDelete user ust ∧
    articleDelete article ast = (GoResult.ok (), ast) ∧
    articleDelete article ((articleDelete article ast).2) = articleDelete article ast := by
  have hu2 : ust.eraseP (fun d => d.id == user.id && d.username == user.username) = ust :=
    List.eraseP_of_forall_not (fun x hx => by simp [hu x hx])
  have ha2 : ast.eraseP (fun d => d.id == article.id && d.titre == article.titre) = ast :=
    List.eraseP_of_forall_not (fun x hx => by simp [ha x hx])
  refine ⟨fun v l => rfl, fun b l => rfl, ?_, ?_, ?_, ?_⟩ <;>
    simp [userDelete, articleDelete, hu2, ha2]

/-- C4 (witness): the theorem evaluated on a store whose only documents do
not match the delete filters. -/
theorem delete_silent_noop_sample :
    userDelete userC [aliceStored] = (GoResult.ok (), [aliceStored]) ∧
    articleDelete articleC [artStoredC] = (GoResult.ok (), [artStoredC]) :=
  ⟨(delete_silent_noop userC [aliceStored] articleC [artStoredC]
      (by decide) (by decide)).2.2.1,
   (delete_silent_noop userC [aliceStored] articleC [artStoredC]
      (by decide) (by decide)).2.2.2.2.1⟩

/-- C5 (counterexample): `ArticleService.GetByID` has no `recover`, so on a
malformed identifier the `bson.ObjectIdHex` panic escapes to the caller
instead of being folded into the generic "No article" error. -/
theorem articleGetByID_malformed_panics :
    articleGetByID "zz" [] = GoResult.panicked ∧
    (GoResult.panicked : GoResult Article) ≠ GoResult.error "No article" :=
  ⟨rfl, by decide⟩

/-- C5 (amended): `ArticleService.GetByID` returns the generic "No article"
error only for well-formed identifiers absent from the store; for a malformed
identifier the low-level parse fault (panic) escapes to the caller, so the
two failure causes are not folded into the same error. -/
theorem articleGetByID_failure_modes (id : String) (st : List Article) :
    (isValidObjectIdHex id = false → articleGetByID id st = GoResult.panicked) ∧
    (∀ oid, objectIdHex id = some oid →
      st.find? (fun a => a.id == oid) = none →
      articleGetByID id st = GoResult.error "No article") := by
  constructor
  · intro h
    simp [articleGetByID, objectIdHex, h]
  · intro oid h1 h2
    simp [articleGetByID, h1, h2]

/-- C5 (witness): the amended theorem evaluated on closed inputs. -/
theorem articleGetByID_failure_modes_sample :
    articleGetByID "zz" [artStoredC] = GoResult.panicked ∧
    articleGetByID otherIdC [artStoredC] = GoResult.error "No article" :=
  ⟨(articleGetByID_failure_modes "zz" [artStoredC]).1 (by decide),
   (articleGetByID_failure_modes otherIdC [artStoredC]).2 otherIdC (by decide) (by decide)⟩

/-- C8: the document `ArticleService.Add` inserts carries
`Modified = article.Create`, the caller-supplied creation timestamp — not the
actual current time (no clock is even consulted). -/
theorem articleAdd_modified_eq_create (san : String → String) (newId : String)
    (a : Article) (st : List Article) :
    ∃ d, (articleAdd san newId a st).2 = st ++ [d] ∧
      d.modified = a.create ∧ d.create = a.create ∧ d.modified = d.create :=
  ⟨articleAddDoc san newId a, articleAdd_snd san newId a st, rfl, rfl, rfl⟩

/-- C2: on both `UserService.Add` and `UserService.Update`, whenever the salt
generation and hashing calls succeed (with at least 32 bytes each, as the
slicing requires) and the hash differs from the plaintext, every document in
the resulting store is either a pre-existing one or carries the freshly
generated salt (its first 32 bytes) together with the salted hash of the
supplied password (its first 32 bytes) — never the plaintext password. -/
theorem persisted_password_is_salted_hash (gen : Except String String)
    (hash : String → String → Except String String)
    (newId id : String) (user : User) (st : List User) (salt hp : String)
    (hgen : gen = Except.ok salt) (hsl : 32 ≤ salt.length)
    (hhash : hash user.password salt = Except.ok hp) (hpl : 32 ≤ hp.length)
    (hplain : take32 hp ≠ user.password) :
    (∀ d ∈ (userAdd gen hash newId user st).2, d ∈ st ∨
      (d.salt = take32 salt ∧ d.password = take32 hp ∧ d.password ≠ user.password)) ∧
    (∀ d ∈ (userUpdate gen hash id user st).2, d ∈ st ∨
      (d.salt = take32 salt ∧ d.password = take32 hp ∧ d.password ≠ user.password)) := by
  constructor
  · intro d hd
    rw [userAdd_snd gen hash newId user st salt hp hgen hsl hhash hpl] at hd
    rcases List.mem_append.mp hd with h | h
    · exact Or.inl h
    · have he : d = userAddDoc newId user (take32 salt) (take32 hp) := by
        simpa using h
      subst he
      exact Or.inr ⟨rfl, rfl, hplain⟩
  · intro d hd
    rw [userUpdate_eq_of_derived gen hash id user st salt hp hgen hsl hhash hpl] at hd
    cases hoid : objectIdHex id with
    | none =>
      simp only [hoid] at hd
      exact Or.inl hd
    | some oid =>
      simp only [hoid] at hd
      cases hup : updateFirst (fun d => d.id == oid)
          (setUserFields user (take32 salt) (take32 hp)) st with
      | none =>
        simp only [hup] at hd
        exact Or.inl hd
      | some l2 =>
        simp only [hup] at hd
        rcases updateFirst_mem _ _ st l2 hup d hd with h | ⟨x, _, he⟩
        · exact Or.inl h
        · subst he
          exact Or.inr ⟨rfl, rfl, hplain⟩

/-- C2 (witness): the theorem evaluated on closed inputs. -/
theorem persisted_password_is_salted_hash_sample :
    (∀ d ∈ (userAdd genSaltC hashFnC newIdC userC [userStoredC]).2, d ∈ [userStoredC] ∨
      (d.salt = take32 saltC ∧ d.password = take32 hashOutC ∧ d.password ≠ userC.password)) ∧
    (∀ d ∈ (userUpdate genSaltC hashFnC newIdC userC [userStoredC]).2, d ∈ [userStoredC] ∨
      (d.salt = take32 saltC ∧ d.password = take32 hashOutC ∧ d.password ≠ userC.password)) :=
  persisted_password_is_salted_hash genSaltC hashFnC newIdC newIdC userC [userStoredC]
    saltC hashOutC rfl (by decide) rfl (by decide) (by decide)

/-- C6: the slug (`pretty`) persisted by `ArticleService.Add` and
`ArticleService.Update` is always `SanitizeTitle` of the article's title: the
document Add inserts carries `pretty = sanitize titre`, a caller-supplied
`pretty` value has no effect on either operation, and a document rewritten by
Update with a new title carries that new title's slug. -/
theorem slug_recomputed_from_title (san : String → String) (newId : String)
    (a : Article) (st : List Article) (id2 : String) (a2 : Article)
    (st2 : List Article) :
    (∃ d, (articleAdd san newId a st).2 = st ++ [d] ∧ d.pretty = san a.titre) ∧
    (∀ p', articleAdd san newId { a with pretty := p' } st = articleAdd san newId a st) ∧
    (∀ d ∈ (articleUpdate san id2 a2 st2).2, d ∈ st2 ∨
      (d.pretty = san a2.titre ∧ d.titre = a2.titre)) ∧
    (∀ p', articleUpdate san id2 { a2 with pretty := p' } st2 = articleUpdate san id2 a2 st2) := by
  refine ⟨⟨articleAddDoc san newId a, articleAdd_snd san newId a st, rfl⟩,
    fun p' => rfl, ?_, fun p' => rfl⟩
  intro d hd
  unfold articleUpdate at hd
  cases hoid : objectIdHex id2 with
  | none =>
    simp only [hoid] at hd
    exact Or.inl hd
  | some oid =>
    simp only [hoid] at hd
    cases hup : updateFirst (fun x => x.id == oid)
        (setArticleFields a2 (san a2.titre)) st2 with
    | none =>
      simp only [hup] at hd
      exact Or.inl hd
    | some l2 =>
      simp only [hup] at hd
      rcases updateFirst_mem _ _ st2 l2 hup d hd with h | ⟨x, _, he⟩
      · exact Or.inl h
      · subst he
        exact Or.inr ⟨rfl, rfl⟩

/-- C6 (witness): the theorem evaluated on closed inputs (in particular the
update branch on a store holding one matching document). -/
theorem slug_recomputed_from_title_sample :
    (∃ d, (articleAdd sanC newIdC articleC []).2 = [] ++ [d] ∧
      d.pretty = sanC articleC.titre) ∧
    ∀ d ∈ (articleUpdate sanC newIdC articleC [artStoredC]).2, d ∈ [artStoredC] ∨
      (d.pretty = sanC articleC.titre ∧ d.titre = articleC.titre) :=
  ⟨(slug_recomputed_from_title sanC newIdC articleC [] newIdC articleC [artStoredC]).1,
   (slug_recomputed_from_title sanC newIdC articleC [] newIdC articleC [artStoredC]).2.2.1⟩

/-- C7: `UserService.Update`, whenever the identifier is well-formed and the
salt/hash calls succeed with at least 32 bytes, regenerates the salt and
rehashes the supplied password unconditionally, and rewrites the first
document whose _id matches the identifier to one with exactly the fields
username, lastname, firstname, password, salt, and email replaced (password
and salt by the newly derived values, the identifier and no other field
preserved from the stored document). -/
theorem update_rehashes_and_sets_exact_fields (gen : Except String String)
    (hash : String → String → Except String String)
    (id : String) (user : User) (pre : List User) (d : User) (post : List User)
    (salt hp oid : String)
    (hgen : gen = Except.ok salt) (hsl : 32 ≤ salt.length)
    (hhash : hash user.password salt = Except.ok hp) (hpl : 32 ≤ hp.length)
    (hoid : objectIdHex id = some oid)
    (hpre : ∀ x ∈ pre, (x.id == oid) = false) (hd : (d.id == oid) = true) :
    userUpdate gen hash id user (pre ++ d :: post) =
      (GoResult.ok (), pre ++
        { d with
          username := user.username,
          lastname := user.lastname,
          firstname := user.firstname,
          password := take32 hp,
          salt := take32 salt,
          email := user.email } :: post) := by
  rw [userUpdate_eq_of_derived gen hash id user (pre ++ d :: post) salt hp hgen hsl hhash hpl]
  simp only [hoid, updateFirst_append _ _ pre d post hpre hd]
  rfl

/-- C7 (witness): the theorem evaluated on a store holding one matching
document. -/
theorem update_rehashes_and_sets_exact_fields_sample :
    userUpdate genSaltC hashFnC newIdC userC [userStoredC] =
      (GoResult.ok (), [{ userStoredC with
        username := userC.username,
        lastname := userC.lastname,
        firstname := userC.firstname,
        password := take32 hashOutC,
        salt := take32 saltC,
        email := userC.email }]) :=
  update_rehashes_and_sets_exact_fields genSaltC hashFnC newIdC userC [] userStoredC []
    saltC hashOutC newIdC rfl (by decide) rfl (by decide) (by decide)
    (fun x hx => absurd hx (List.not_mem_nil x)) (by decide)

/-- C9: round-trip.  If `Add` succeeds — returning the record it read back
right after insert — then `GetByID` on that record's id returns the very same
record, for users and for articles alike, provided the generated ObjectId is
well-formed lower-case hex (as `bson.NewObjectId` guarantees). -/
theorem add_then_getByID_roundtrip (gen : Except String String)
    (hash : String → String → Except String String) (san : String → String)
    (newId : String) (user : User) (a : Article)
    (ust ust2 : List User) (ast ast2 : List Article) (r : User) (ra : Article)
    (hvalid : isValidObjectIdHex newId = true) (hlower : lowerHex newId = newId)
    (hu : userAdd gen hash newId user ust = (GoResult.ok r, ust2))
    (ha : articleAdd san newId a ast = (GoResult.ok ra, ast2)) :
    userGetByID r.id ust2 = GoResult.ok r ∧
    articleGetByID ra.id ast2 = GoResult.ok ra := by
  have hfu := userAdd_ok_find gen hash newId user ust r ust2 hu
  have hrid : r.id = newId := by simpa using List.find?_some hfu
  have hfa := articleAdd_ok_find san newId a ast ra ast2 ha
  have hraid : ra.id = newId := by simpa using List.find?_some hfa
  have hoid : objectIdHex newId = some newId := by
    simp [objectIdHex, hvalid, hlower]
  constructor
  · simp only [userGetByID, hrid, hoid, hfu]
  · simp only [articleGetByID, hraid, hoid, hfa]

/-- C9 (witness): the theorem evaluated on a concrete successful `Add`. -/
theorem add_then_getByID_roundtrip_sample :
    userGetByID userAddedC.id [userAddedC] = GoResult.ok userAddedC ∧
    articleGetByID articleAddedC.id [articleAddedC] = GoResult.ok articleAddedC :=
  add_then_getByID_roundtrip genSaltC hashFnC sanC newIdC userC articleC
    [] [userAddedC] [] [articleAddedC] userAddedC articleAddedC
    (by decide) (by decide) (by decide) (by decide)

/-- C10: the author reference `ArticleService.Add` persists uses the fixed
collection name "user" with the caller-supplied reference id — a
caller-supplied collection name has no effect on Add — whereas
`ArticleService.Update` persists the caller-supplied collection name
verbatim in every document it rewrites. -/
theorem author_ref_collection (san : String → String) (newId : String)
    (a : Article) (st : List Article) (id2 : String) (a2 : Article)
    (st2 : List Article) :
    (∃ d, (articleAdd san newId a st).2 = st ++ [d] ∧
      d.userRef = { collection := "user", id := a.userRef.id }) ∧
    (∀ c', articleAdd san newId
        { a with userRef := { collection := c', id := a.userRef.id } } st =
      articleAdd san newId a st) ∧
    (∀ d ∈ (articleUpdate san id2 a2 st2).2, d ∈ st2 ∨
      d.userRef = { collection := a2.userRef.collection, id := a2.userRef.id }) := by
  refine ⟨⟨articleAddDoc san newId a, articleAdd_snd san newId a st, rfl⟩,
    fun c' => rfl, ?_⟩
  intro d hd
  unfold articleUpdate at hd
  cases hoid : objectIdHex id2 with
  | none =>
    simp only [hoid] at hd
    exact Or.inl hd
  | some oid =>
    simp only [hoid] at hd
    cases hup : updateFirst (fun x => x.id == oid)
        (setArticleFields a2 (san a2.titre)) st2 with
    | none =>
      simp only [hup] at hd
      exact Or.inl hd
    | some l2 =>
      simp only [hup] at hd
      rcases updateFirst_mem _ _ st2 l2 hup d hd with h | ⟨x, _, he⟩
      · exact Or.inl h
      · subst he
        exact Or.inr rfl

/-- C10 (witness): the theorem evaluated on closed inputs (the Add part and
the Update part on a store holding one matching document). -/
theorem author_ref_collection_sample :
    (∃ d, (articleAdd sanC newIdC articleC []).2 = [] ++ [d] ∧
      d.userRef = { collection := "user", id := articleC.userRef.id }) ∧
    ∀ d ∈ (articleUpdate sanC newIdC articleC [artStoredC]).2, d ∈ [artStoredC] ∨
      d.userRef = { collection := articleC.userRef.collection, id := articleC.userRef.id } :=
  ⟨(author_ref_collection sanC newIdC articleC [] newIdC articleC [artStoredC]).1,
   (author_ref_collection sanC newIdC articleC [] newIdC articleC [artStoredC]).2.2⟩

end LunarcBlog
